import Mathlib

/-!
# Verification of the softix-cli transaction workflow client

Shallow embedding of `src/softixcli/cli.py`: a click-based command-line
client that drives a remote ticketing service (the external `softix`
SDK).  Each subcommand body is translated into a pure function from its
parsed parameters and the remote stub's behaviour to an `Outcome`
recording what was printed, which remote calls were issued, which files
were written, and how the process terminated.

External collaborators are modelled by their documented behaviour:
* the remote `softix` client is a parameter `remote : RemoteCall → Except String Json`
  (a `SoftixError` carries the service-provided message);
* `json.loads` on user payloads is a parameter `Except Unit Json`
  (a `ValueError` on unparseable input);
* click's parameter machinery (required options, callbacks, lazy
  `File('wb')` handles) is embedded explicitly where a claim depends on it.
-/

-- JSON values as delivered by the remote service and printed by the CLI.
-- (Mutual, non-nested form so that the serializers below are structural
-- and kernel-reducible.)
mutual
inductive Json where
| str : String → Json
| num : Int → Json
| jbool : Bool → Json
| null : Json
| arr : JsonArr → Json
| obj : JsonObj → Json
deriving DecidableEq, Repr

inductive JsonArr where
| anil : JsonArr
| acons : Json → JsonArr → JsonArr
deriving DecidableEq, Repr

inductive JsonObj where
| onil : JsonObj
| ocons : String → Json → JsonObj → JsonObj
deriving DecidableEq, Repr
end

/-- Escaping applied by Python's `json.dumps` to the characters that can
occur in the payloads handled here (quote and backslash). -/
def jsonEscape (s : String) : String :=
  String.join (s.data.map fun c =>
    if c = '"' then "\\\"" else if c = '\\' then "\\\\" else String.singleton c)

-- Model of Python's `json.dumps(value)` with its default separators
-- `(", ", ": ")`: note the space after each colon and comma.
mutual
def Json.dumps : Json → String
  | .str s => "\"" ++ jsonEscape s ++ "\""
  | .num n => toString n
  | .jbool b => if b then "true" else "false"
  | .null => "null"
  | .arr xs => "[" ++ JsonArr.dumpsItems xs ++ "]"
  | .obj kvs => "\x7b" ++ JsonObj.dumpsItems kvs ++ "\x7d"

def JsonArr.dumpsItems : JsonArr → String
  | .anil => ""
  | .acons x .anil => Json.dumps x
  | .acons x xs => Json.dumps x ++ ", " ++ JsonArr.dumpsItems xs

def JsonObj.dumpsItems : JsonObj → String
  | .onil => ""
  | .ocons k v .onil => "\"" ++ jsonEscape k ++ "\": " ++ Json.dumps v
  | .ocons k v kvs =>
    "\"" ++ jsonEscape k ++ "\": " ++ Json.dumps v ++ ", " ++ JsonObj.dumpsItems kvs
end

/-- `n` spaces, for the indented serializer. -/
def spaces (n : Nat) : String :=
  String.mk (List.replicate n ' ')

-- Model of Python's `json.dumps(value, indent=4)` (used by `create-token`
-- when printing the token to stdout): item separators become `(",", ": ")`,
-- each container item starts on its own line at the next indent level,
-- empty containers print inline.
mutual
def Json.dumpsInd : Nat → Json → String
  | _, .str s => "\"" ++ jsonEscape s ++ "\""
  | _, .num n => toString n
  | _, .jbool b => if b then "true" else "false"
  | _, .null => "null"
  | _, .arr .anil => "[]"
  | lvl, .arr xs => "[\n" ++ JsonArr.dumpsIndItems lvl xs ++ "\n" ++ spaces (4 * lvl) ++ "]"
  | _, .obj .onil => "\x7b\x7d"
  | lvl, .obj kvs => "\x7b\n" ++ JsonObj.dumpsIndItems lvl kvs ++ "\n" ++ spaces (4 * lvl) ++ "\x7d"

def JsonArr.dumpsIndItems : Nat → JsonArr → String
  | _, .anil => ""
  | lvl, .acons x .anil => spaces (4 * (lvl + 1)) ++ Json.dumpsInd (lvl + 1) x
  | lvl, .acons x xs =>
    spaces (4 * (lvl + 1)) ++ Json.dumpsInd (lvl + 1) x ++ ",\n" ++ JsonArr.dumpsIndItems lvl xs

def JsonObj.dumpsIndItems : Nat → JsonObj → String
  | _, .onil => ""
  | lvl, .ocons k v .onil =>
    spaces (4 * (lvl + 1)) ++ "\"" ++ jsonEscape k ++ "\": " ++ Json.dumpsInd (lvl + 1) v
  | lvl, .ocons k v kvs =>
    spaces (4 * (lvl + 1)) ++ "\"" ++ jsonEscape k ++ "\": " ++ Json.dumpsInd (lvl + 1) v
      ++ ",\n" ++ JsonObj.dumpsIndItems lvl kvs
end

-- Model of Python's `repr` on JSON-shaped values (dict/list/str/int/bool/None):
-- single-quoted strings, `True`/`False`/`None`, `\x7b'k': v\x7d` for dicts.
mutual
def pyRepr : Json → String
  | .str s => "\x27" ++ s ++ "\x27"
  | .num n => toString n
  | .jbool b => if b then "True" else "False"
  | .null => "None"
  | .arr xs => "[" ++ JsonArr.pyReprItems xs ++ "]"
  | .obj kvs => "\x7b" ++ JsonObj.pyReprItems kvs ++ "\x7d"

def JsonArr.pyReprItems : JsonArr → String
  | .anil => ""
  | .acons x .anil => pyRepr x
  | .acons x xs => pyRepr x ++ ", " ++ JsonArr.pyReprItems xs

def JsonObj.pyReprItems : JsonObj → String
  | .onil => ""
  | .ocons k v .onil => "\x27" ++ k ++ "\x27: " ++ pyRepr v
  | .ocons k v kvs => "\x27" ++ k ++ "\x27: " ++ pyRepr v ++ ", " ++ JsonObj.pyReprItems kvs
end

/-- Model of Python's `str` as applied by `click.echo` to a non-string
message object: a top-level string prints verbatim, anything else prints
as its `repr`.  This is how `reverse-order` emits the raw reversal result. -/
def pyStr : Json → String
  | .str s => s
  | v => pyRepr v

/-- A demand tuple as constructed by `softix.Demand(*d)` from the three
string components of one `--demand` occurrence (click passes them through
untyped, i.e. as strings). -/
structure Demand where
  price_type_code : String
  quantity : String
  admits : String
deriving DecidableEq, Repr

/-- A fee as constructed by `softix.Fee(*f)` from the two string
components of one `--fee` occurrence. -/
structure Fee where
  ftype : String
  code : String
deriving DecidableEq, Repr

/-- One call on the remote `softix` client, with exactly the arguments the
CLI passes.  No constructor carries the token: the command bodies never
forward it. -/
inductive RemoteCall where
| createCustomer (seller_code : String) (customer_data : Json)
| addOffer (seller_code basket_id performance_code sec : String)
    (demands : List Demand) (fees : List Fee)
| createBasket (seller_code performance_code sec : String)
    (demands : List Demand) (fees : List Fee) (customer_id : Option String)
| authenticate (client_id secret : String)
| performanceAvailabilities (seller_code performance_code : String)
| performancePrices (seller_code performance_code : String)
| basket (seller_code basket_id : String)
| customer (seller_code customer_id : String)
| order (seller_code order_id : String)
| purchaseBasket (seller_code basket_id : String) (customer_id : Option String)
| reverseOrder (seller_code order_id : String)
deriving DecidableEq, Repr

/-- How an invocation terminates.
* `exit n` — normal completion (`n = 0`) or `context.exit(n)`;
* `usage msg` — a click `UsageError`/`BadParameter`/`context.fail`:
  click prints the usage line and `Error: msg` to stderr and exits with
  status 2;
* `exn msg` — an exception escapes the command body uncaught: Python
  prints a traceback to stderr and the process exits with status 1, but
  nothing is printed through the CLI's output contract. -/
inductive ExitKind where
| exit : Nat → ExitKind
| usage : String → ExitKind
| exn : String → ExitKind
deriving DecidableEq, Repr

/-- The process exit status each termination kind produces. -/
def ExitKind.code : ExitKind → Nat
  | .exit n => n
  | .usage _ => 2
  | .exn _ => 1

/-- Observable result of one CLI invocation: lines echoed to stdout, the
remote calls issued (in order), the files written (path, content), and
the termination kind. -/
structure Outcome where
  stdout : List String
  calls : List RemoteCall
  writes : List (String × String)
  term : ExitKind
deriving DecidableEq, Repr

/-- Body of `create-customer` (cli.py lines 33–52).  `loaded` is the
result of `json.loads(data)` (`.error ()` models a `ValueError` on an
unparseable payload).  On remote failure the handler calls
`context.fail(error.message)`, a usage error. -/
def create_customer (seller_code : String) (loaded : Except Unit Json) (token : Json)
    (remote : RemoteCall → Except String Json) : Outcome :=
  match loaded with
  | .error _ => ⟨["Unable to parse customer data as JSON"], [], [], .exit 1⟩
  | .ok customer_data =>
    let call := RemoteCall.createCustomer seller_code customer_data
    match remote call with
    | .ok customer => ⟨[Json.dumps customer], [call], [], .exit 0⟩
    | .error msg => ⟨[], [call], [], .usage msg⟩

/-- Body of `add-offer` (cli.py lines 54–71).  The source wraps the
remote call in no try/except, so a `SoftixError` escapes uncaught. -/
def add_offer (seller_code basket_id performance_code sec : String)
    (demand : List (String × String × String)) (fee : List (String × String))
    (token : Json) (remote : RemoteCall → Except String Json) : Outcome :=
  let demands := demand.map fun d => Demand.mk d.1 d.2.1 d.2.2
  let fees := fee.map fun f => Fee.mk f.1 f.2
  let call := RemoteCall.addOffer seller_code basket_id performance_code sec demands fees
  match remote call with
  | .ok basket => ⟨[Json.dumps basket], [call], [], .exit 0⟩
  | .error msg => ⟨[], [call], [], .exn msg⟩

/-- Body of `create-basket` (cli.py lines 74–91).  Like `add-offer`, no
try/except around the remote call. -/
def create_basket (seller_code performance_code sec : String)
    (demand : List (String × String × String)) (fee : List (String × String))
    (customer_id : Option String) (token : Json)
    (remote : RemoteCall → Except String Json) : Outcome :=
  let demands := demand.map fun d => Demand.mk d.1 d.2.1 d.2.2
  let fees := fee.map fun f => Fee.mk f.1 f.2
  let call := RemoteCall.createBasket seller_code performance_code sec demands fees customer_id
  match remote call with
  | .ok basket => ⟨[Json.dumps basket], [call], [], .exit 0⟩
  | .error msg => ⟨[], [call], [], .exn msg⟩

/-- `create-token` (cli.py lines 94–112), parameter phase included.
`fs` tells whether a path currently exists.  click's `File('wb')` is
lazy (write-mode files are opened only on first write), so the
`file_exists` callback (lines 9–17) rejects an existing destination with
`BadParameter` before the file is opened and before the body runs; the
body then authenticates and either writes the token file or prints the
token with `json.dumps(auth_data, indent=4)`. -/
def create_token (client_id secret : String) (dest : Option String)
    (fs : String → Bool) (remote : RemoteCall → Except String Json) : Outcome :=
  match dest with
  | some filename =>
    if fs filename then
      ⟨[], [], [], .usage (filename ++ " already exists")⟩
    else
      match remote (.authenticate client_id secret) with
      | .ok auth_data =>
        ⟨[], [.authenticate client_id secret], [(filename, Json.dumps auth_data)], .exit 0⟩
      | .error msg => ⟨[msg], [.authenticate client_id secret], [], .exit 1⟩
  | none =>
    match remote (.authenticate client_id secret) with
    | .ok auth_data =>
      ⟨[Json.dumpsInd 0 auth_data], [.authenticate client_id secret], [], .exit 0⟩
    | .error msg => ⟨[msg], [.authenticate client_id secret], [], .exit 1⟩

/-- Body of `get-performance-availabilities` (cli.py lines 120–138). -/
def get_performance_availabilities (seller_code performance_code : String) (token : Json)
    (remote : RemoteCall → Except String Json) : Outcome :=
  let call := RemoteCall.performanceAvailabilities seller_code performance_code
  match remote call with
  | .ok performance_data => ⟨[Json.dumps performance_data], [call], [], .exit 0⟩
  | .error msg => ⟨[msg], [call], [], .exit 1⟩

/-- Body of `get-performance-prices` (cli.py lines 140–156). -/
def get_performance_prices (seller_code performance_code : String) (token : Json)
    (remote : RemoteCall → Except String Json) : Outcome :=
  let call := RemoteCall.performancePrices seller_code performance_code
  match remote call with
  | .ok performance_prices => ⟨[Json.dumps performance_prices], [call], [], .exit 0⟩
  | .error msg => ⟨[msg], [call], [], .exit 1⟩

/-- Body of `get-basket` (cli.py lines 158–174). -/
def get_basket (seller_code basket_id : String) (token : Json)
    (remote : RemoteCall → Except String Json) : Outcome :=
  let call := RemoteCall.basket seller_code basket_id
  match remote call with
  | .ok basket => ⟨[Json.dumps basket], [call], [], .exit 0⟩
  | .error msg => ⟨[msg], [call], [], .exit 1⟩

/-- Body of the `get-customer` command (cli.py lines 176–192; in the
source its handler function shadows the name `get_basket`, but the
registered command is distinct). -/
def get_customer (seller_code customer_id : String) (token : Json)
    (remote : RemoteCall → Except String Json) : Outcome :=
  let call := RemoteCall.customer seller_code customer_id
  match remote call with
  | .ok order => ⟨[Json.dumps order], [call], [], .exit 0⟩
  | .error msg => ⟨[msg], [call], [], .exit 1⟩

/-- Body of the `get-order` command (cli.py lines 195–211; same name
shadowing as `get-customer`). -/
def get_order (seller_code order_id : String) (token : Json)
    (remote : RemoteCall → Except String Json) : Outcome :=
  let call := RemoteCall.order seller_code order_id
  match remote call with
  | .ok order => ⟨[Json.dumps order], [call], [], .exit 0⟩
  | .error msg => ⟨[msg], [call], [], .exit 1⟩

/-- Body of `purchase-basket` (cli.py lines 214–233). -/
def purchase_basket (seller_code basket_id : String) (customer_id : Option String)
    (token : Json) (remote : RemoteCall → Except String Json) : Outcome :=
  let call := RemoteCall.purchaseBasket seller_code basket_id customer_id
  match remote call with
  | .ok basket => ⟨[Json.dumps basket], [call], [], .exit 0⟩
  | .error msg => ⟨[msg], [call], [], .exit 1⟩

/-- Body of `reverse-order` (cli.py lines 236–251).  Success echoes the
raw reversal result (`click.echo(refund)`, i.e. Python `str`), not its
JSON serialization. -/
def reverse_order (seller_code order_id : String) (token : Json)
    (remote : RemoteCall → Except String Json) : Outcome :=
  let call := RemoteCall.reverseOrder seller_code order_id
  match remote call with
  | .ok refund => ⟨[pyStr refund], [call], [], .exit 0⟩
  | .error msg => ⟨[msg], [call], [], .exit 1⟩

/-- Modelled from the spec: `softixcli/validations.py` (imported by
cli.py for the `--fee` callback `validate_fee`) is not present under
src/.  Spec §4.1: "validateFee(raw: (type, code)): fails with
ValidationError if either field is empty or malformed".  The callback
checks every collected fee tuple; the first tuple with an empty type or
code is rejected with a parameter-level `BadParameter` (a usage error),
and `none` means all tuples pass. -/
def validate_fee (fee : List (String × String)) : Option (String × String) :=
  fee.find? fun f => f.1 = "" || f.2 = ""

/-- `add-offer` with its `--fee` validation callback: click runs
`validate_fee` while processing parameters, before the command body (and
hence before any remote call). -/
def add_offer_cli (seller_code basket_id performance_code sec : String)
    (demand : List (String × String × String)) (fee : List (String × String))
    (token : Json) (remote : RemoteCall → Except String Json) : Outcome :=
  match validate_fee fee with
  | some bad => ⟨[], [], [], .usage ("invalid fee " ++ bad.1 ++ " " ++ bad.2)⟩
  | none => add_offer seller_code basket_id performance_code sec demand fee token remote

/-- `create-basket` with its `--fee` validation callback (same phase
ordering as `add_offer_cli`). -/
def create_basket_cli (seller_code performance_code sec : String)
    (demand : List (String × String × String)) (fee : List (String × String))
    (customer_id : Option String) (token : Json)
    (remote : RemoteCall → Except String Json) : Outcome :=
  match validate_fee fee with
  | some bad => ⟨[], [], [], .usage ("invalid fee " ++ bad.1 ++ " " ++ bad.2)⟩
  | none => create_basket seller_code performance_code sec demand fee customer_id token remote

/-- One declared parameter of a subcommand: its name and whether click
treats it as required (positional arguments are always required). -/
structure ParamSpec where
  pname : String
  required : Bool
deriving DecidableEq, Repr

/-- The parameters each subcommand declares, transcribed from the click
decorators in cli.py, in declaration order.  `delete-customer`
(lines 115–118) declares none at all — in particular no `--token-json`. -/
def commandParams : String → List ParamSpec
  | "create-customer" => [⟨"--data", true⟩, ⟨"--token-json", true⟩]
  | "add-offer" =>
    [⟨"basket-id", true⟩, ⟨"performance-code", true⟩, ⟨"--section", true⟩,
     ⟨"--demand", true⟩, ⟨"--fee", true⟩, ⟨"--token-json", true⟩]
  | "create-basket" =>
    [⟨"performance-code", true⟩, ⟨"--section", true⟩, ⟨"--demand", true⟩,
     ⟨"--fee", true⟩, ⟨"--customer-id", false⟩, ⟨"--token-json", true⟩]
  | "create-token" => [⟨"--file", false⟩]
  | "delete-customer" => []
  | "get-performance-availabilities" => [⟨"performance-code", true⟩, ⟨"--token-json", true⟩]
  | "get-performance-prices" => [⟨"performance-code", true⟩, ⟨"--token-json", true⟩]
  | "get-basket" => [⟨"basket-id", true⟩, ⟨"--token-json", true⟩]
  | "get-customer" => [⟨"customer-id", true⟩, ⟨"--token-json", true⟩]
  | "get-order" => [⟨"order-id", true⟩, ⟨"--token-json", true⟩]
  | "purchase-basket" => [⟨"basket-id", true⟩, ⟨"--customer-id", false⟩, ⟨"--token-json", true⟩]
  | "reverse-order" => [⟨"order-id", true⟩, ⟨"--token-json", true⟩]
  | _ => []

/-- The subcommands registered on the root group, in source order. -/
def rootCommands : List String :=
  ["create-customer", "add-offer", "create-basket", "create-token", "delete-customer",
   "get-performance-availabilities", "get-performance-prices", "get-basket",
   "get-customer", "get-order", "purchase-basket", "reverse-order"]

/-- click's required-parameter check: the first declared required
parameter not present among the provided parameter names, if any. -/
def missingRequired (cmd : String) (provided : List String) : Option String :=
  ((commandParams cmd).find? fun p => p.required && !(provided.contains p.pname)).map
    (fun p => p.pname)

/-- Invoking subcommand `cmd` with the named parameters `provided`
present on the command line: click raises a usage error ("Missing
option/argument") during parameter processing when a required parameter
is absent, and only otherwise runs the command body `body` (the body is
where every remote call happens). -/
def runCommand (cmd : String) (provided : List String) (body : Outcome) : Outcome :=
  match missingRequired cmd provided with
  | some p => ⟨[], [], [], .usage ("Missing parameter " ++ p)⟩
  | none => body

/-- Sample remote response used in the concrete scenarios below. -/
def basketStubResponse : Json :=
  Json.obj (.ocons "id" (.str "B100") (.ocons "performanceCode" (.str "PERF1") .onil))

/-- Sample reversal result used to separate `str` output from `json.dumps`. -/
def reversalSampleResult : Json :=
  Json.obj (.ocons "message" (.str "reversed") .onil)

/-- The concrete `create-basket` scenario of the spec: performance
`PERF1`, section `A`, one demand `GA 2 2`, one fee `SVC F1`, with the
remote stub succeeding with `basketStubResponse`. -/
def createBasketScenario : Outcome :=
  create_basket_cli "SELL" "PERF1" "A" [("GA", "2", "2")] [("SVC", "F1")] none Json.null
    (fun _ => .ok basketStubResponse)

/-- Spec §8 well-formedness of a demand tuple: a non-empty price type
code and numeric (hence non-negative) quantity and admits components. -/
def wellFormedDemand (d : String × String × String) : Bool :=
  !d.1.data.isEmpty &&
    (!d.2.1.data.isEmpty && d.2.1.data.all Char.isDigit) &&
    (!d.2.2.data.isEmpty && d.2.2.data.all Char.isDigit)

/-- Helper: if some required parameter of `cmd` is absent from the
provided parameters, the invocation stops in click's parameter phase
with a usage error — nothing printed, no remote call, no write. -/
theorem runCommand_missing_required (cmd : String) (provided : List String) (body : Outcome)
    (p : ParamSpec) (hp : p ∈ commandParams cmd) (hreq : p.required = true)
    (habs : provided.contains p.pname = false) :
    (runCommand cmd provided body).calls = [] ∧
    (runCommand cmd provided body).stdout = [] ∧
    ∃ m, (runCommand cmd provided body).term = ExitKind.usage m := by
  have hsome :
      ((commandParams cmd).find? fun q => q.required && !(provided.contains q.pname)).isSome := by
    rw [List.find?_isSome]
    exact ⟨p, hp, by rw [hreq, habs]; rfl⟩
  obtain ⟨q, hq⟩ := Option.isSome_iff_exists.mp hsome
  simp only [runCommand, missingRequired, hq, Option.map_some]
  exact ⟨rfl, rfl, _, rfl⟩

/-- C1 (code bug): the spec requires every operation to print the
service-provided message and exit with status 1 on a remote failure, as
the eight commands with an explicit `SoftixError` handler do
(`reverse-order` shown last as the compliant reference).  But
`create-customer` routes the failure through `context.fail`, which is a
usage error exiting with status 2, and `add-offer` / `create-basket`
have no handler at all, so the error escapes as an uncaught exception:
nothing is printed through the output contract. -/
theorem remote_failure_reporting_divergence :
    (create_customer "SELL" (.ok (Json.obj .onil)) Json.null (fun _ => .error "boom")).term =
      ExitKind.usage "boom" ∧
    ExitKind.code (ExitKind.usage "boom") = 2 ∧
    add_offer "SELL" "B1" "PERF1" "A" [("GA", "1", "1")] [("SVC", "F1")] Json.null
        (fun _ => .error "boom") =
      ⟨[], [RemoteCall.addOffer "SELL" "B1" "PERF1" "A" [⟨"GA", "1", "1"⟩] [⟨"SVC", "F1"⟩]],
       [], .exn "boom"⟩ ∧
    create_basket "SELL" "PERF1" "A" [("GA", "1", "1")] [("SVC", "F1")] none Json.null
        (fun _ => .error "boom") =
      ⟨[], [RemoteCall.createBasket "SELL" "PERF1" "A" [⟨"GA", "1", "1"⟩] [⟨"SVC", "F1"⟩] none],
       [], .exn "boom"⟩ ∧
    reverse_order "SELL" "O500" Json.null (fun _ => .error "boom") =
      ⟨["boom"], [RemoteCall.reverseOrder "SELL" "O500"], [], .exit 1⟩ :=
  ⟨rfl, rfl, rfl, rfl, rfl⟩

/-- C2 (amended): every subcommand registered on the root group other
than `create-token` and `delete-customer` declares `--token-json` as a
required option, and any invocation that omits it stops with a usage
error during parameter validation — before the body, hence before any
remote call. -/
theorem token_required_except_create_token_and_delete_customer :
    ∀ cmd ∈ rootCommands, cmd ≠ "create-token" → cmd ≠ "delete-customer" →
      ParamSpec.mk "--token-json" true ∈ commandParams cmd ∧
      ∀ (provided : List String) (body : Outcome),
        provided.contains "--token-json" = false →
          (runCommand cmd provided body).calls = [] ∧
          (runCommand cmd provided body).stdout = [] ∧
          ∃ m, (runCommand cmd provided body).term = ExitKind.usage m := by
  intro cmd hmem h1 h2
  simp only [rootCommands, List.mem_cons, List.not_mem_nil, or_false] at hmem
  rcases hmem with rfl | rfl | rfl | rfl | rfl | rfl | rfl | rfl | rfl | rfl | rfl | rfl
  all_goals first
  | exact absurd rfl h1
  | exact absurd rfl h2
  | exact ⟨by decide, fun provided body habs =>
      runCommand_missing_required _ provided body ⟨"--token-json", true⟩ (by decide) rfl habs⟩

/-- Witness for C2's amended theorem at `get-basket` invoked with only
its positional argument. -/
theorem token_required_except_create_token_and_delete_customer_witness :
    (runCommand "get-basket" ["basket-id"] ⟨[], [RemoteCall.basket "S" "B1"], [], .exit 0⟩).calls
      = [] ∧
    ∃ m, (runCommand "get-basket" ["basket-id"]
      ⟨[], [RemoteCall.basket "S" "B1"], [], .exit 0⟩).term = ExitKind.usage m := by
  obtain ⟨hmem, hrun⟩ :=
    token_required_except_create_token_and_delete_customer "get-basket" (by decide)
      (by decide) (by decide)
  obtain ⟨hc, hs, hm⟩ :=
    hrun ["basket-id"] ⟨[], [RemoteCall.basket "S" "B1"], [], .exit 0⟩ (by decide)
  exact ⟨hc, hm⟩

/-- C2 counterexample: `delete-customer` is registered on the root group
and is not `create-token`, yet it declares no parameters at all — in
particular no `--token-json` — and invoking it with nothing provided
passes click's validation and reaches the body. -/
theorem delete_customer_requires_no_token :
    "delete-customer" ∈ rootCommands ∧
    "delete-customer" ≠ "create-token" ∧
    commandParams "delete-customer" = [] ∧
    runCommand "delete-customer" [] ⟨[], [], [], .exit 0⟩ = ⟨[], [], [], .exit 0⟩ :=
  ⟨by decide, by decide, rfl, rfl⟩

/-- C3: `create-token --file` with a destination that already exists is
rejected by the `file_exists` callback with a destination-collision
`BadParameter`: no remote authentication call is issued, nothing is
written (click's write-mode `File` is lazy, so the existing file is
never opened, hence unchanged), and the invocation ends in a usage
error. -/
theorem create_token_existing_destination (client_id secret filename : String)
    (fs : String → Bool) (remote : RemoteCall → Except String Json)
    (h : fs filename = true) :
    create_token client_id secret (some filename) fs remote =
      ⟨[], [], [], .usage (filename ++ " already exists")⟩ := by
  simp [create_token, h]

/-- Witness for C3 on the path `tok.json` in a state where it exists. -/
theorem create_token_existing_destination_witness :
    (fun _ : String => true) "tok.json" = true ∧
    create_token "ID" "SEC" (some "tok.json") (fun _ => true) (fun _ => .ok Json.null) =
      ⟨[], [], [], .usage ("tok.json" ++ " already exists")⟩ :=
  ⟨rfl, create_token_existing_destination "ID" "SEC" "tok.json" (fun _ => true)
    (fun _ => .ok Json.null) rfl⟩

/-- C4: whenever some `--fee` tuple has an empty type or an empty code,
the `validate_fee` callback rejects the invocation during parameter
processing, for both `add-offer` and `create-basket`: the invocation
ends in a usage error and the remote client is never invoked. -/
theorem empty_fee_rejected_before_remote_call
    (seller_code basket_id performance_code sec : String)
    (demand : List (String × String × String)) (fee : List (String × String))
    (customer_id : Option String) (token : Json)
    (remote : RemoteCall → Except String Json)
    (h : ∃ f ∈ fee, f.1 = "" ∨ f.2 = "") :
    (add_offer_cli seller_code basket_id performance_code sec demand fee token remote).calls
      = [] ∧
    (∃ m, (add_offer_cli seller_code basket_id performance_code sec demand fee token
      remote).term = ExitKind.usage m) ∧
    (create_basket_cli seller_code performance_code sec demand fee customer_id token
      remote).calls = [] ∧
    ∃ m, (create_basket_cli seller_code performance_code sec demand fee customer_id token
      remote).term = ExitKind.usage m := by
  have hsome : (validate_fee fee).isSome := by
    rw [validate_fee, List.find?_isSome]
    obtain ⟨f, hf, hbad⟩ := h
    refine ⟨f, hf, ?_⟩
    rcases hbad with h1 | h1 <;> simp [h1]
  obtain ⟨bad, hbad⟩ := Option.isSome_iff_exists.mp hsome
  simp [add_offer_cli, create_basket_cli, hbad]

/-- Witness for C4 with the single fee tuple `("", "F1")`. -/
theorem empty_fee_rejected_before_remote_call_witness :
    (∃ f ∈ [("", "F1")], f.1 = "" ∨ f.2 = "") ∧
    (add_offer_cli "SELL" "B1" "PERF1" "A" [("GA", "2", "2")] [("", "F1")] Json.null
      (fun _ => .ok Json.null)).calls = [] ∧
    ∃ m, (create_basket_cli "SELL" "PERF1" "A" [("GA", "2", "2")] [("", "F1")] none Json.null
      (fun _ => .ok Json.null)).term = ExitKind.usage m := by
  have h : ∃ f ∈ [("", "F1")], f.1 = "" ∨ f.2 = "" := ⟨("", "F1"), by decide, by decide⟩
  obtain ⟨h1, h2, h3, h4⟩ :=
    empty_fee_rejected_before_remote_call "SELL" "B1" "PERF1" "A" [("GA", "2", "2")]
      [("", "F1")] none Json.null (fun _ => .ok Json.null) h
  exact ⟨h, h1, h4⟩

/-- C5 counterexample: the command prints the response through
`json.dumps`, whose default separators put a space after each colon and
comma, so the printed line is not byte-for-byte the compact text
`{"id":"B100","performanceCode":"PERF1"}` the claim states. -/
theorem create_basket_scenario_not_compact :
    createBasketScenario.stdout ≠ ["\x7b\"id\":\"B100\",\"performanceCode\":\"PERF1\"\x7d"] := by
  decide

/-- C5 (amended): the scenario prints exactly one line — the stubbed
response serialized with Python's default separators, i.e.
`{"id": "B100", "performanceCode": "PERF1"}` — issues exactly the one
create-basket call, writes nothing, and exits with status 0. -/
theorem create_basket_scenario_output :
    createBasketScenario =
      ⟨["\x7b\"id\": \"B100\", \"performanceCode\": \"PERF1\"\x7d"],
       [RemoteCall.createBasket "SELL" "PERF1" "A" [⟨"GA", "2", "2"⟩] [⟨"SVC", "F1"⟩] none],
       [], .exit 0⟩ :=
  rfl

/-- C6: an unparseable `--data` payload makes `create-customer` print
its dedicated message `Unable to parse customer data as JSON` and exit
with status 1 without touching the remote client, and that outcome is
distinct from the one produced when the remote service rejects the call
(which issues the call and terminates through `context.fail`). -/
theorem create_customer_parse_failure (seller_code : String) (token : Json)
    (remote : RemoteCall → Except String Json) :
    create_customer seller_code (.error ()) token remote =
      ⟨["Unable to parse customer data as JSON"], [], [], .exit 1⟩ ∧
    ∀ (d : Json) (m : String),
      (create_customer seller_code (.ok d) token (fun _ => .error m)).term = ExitKind.usage m ∧
      create_customer seller_code (.ok d) token (fun _ => .error m) ≠
        create_customer seller_code (.error ()) token remote := by
  refine ⟨rfl, fun d m => ⟨rfl, fun hcontra => ?_⟩⟩
  have hcalls := congrArg Outcome.calls hcontra
  simp [create_customer] at hcalls

/-- C7: `reverse-order O500` with the remote reversal failing with
message `order not found` prints exactly that message and exits with
status 1; on remote success the reversal result is echoed raw (Python
`str`, as `click.echo(refund)` does), which differs from its JSON
re-serialization, as the sample result shows. -/
theorem reverse_order_scenario :
    reverse_order "SELL" "O500" Json.null (fun _ => .error "order not found") =
      ⟨["order not found"], [RemoteCall.reverseOrder "SELL" "O500"], [], .exit 1⟩ ∧
    (∀ (seller_code order_id : String) (token v : Json),
      reverse_order seller_code order_id token (fun _ => .ok v) =
        ⟨[pyStr v], [RemoteCall.reverseOrder seller_code order_id], [], .exit 0⟩) ∧
    pyStr reversalSampleResult ≠ Json.dumps reversalSampleResult := by
  exact ⟨rfl, fun _ _ _ _ => rfl, by decide⟩

/-- C8: `create-token` without `--file`, with the remote authentication
succeeding, prints the returned token structure as JSON
(`json.dumps(auth_data, indent=4)`) to stdout, writes no file, and exits
with status 0. -/
theorem create_token_no_destination (client_id secret : String) (fs : String → Bool)
    (auth_data : Json) :
    create_token client_id secret none fs (fun _ => .ok auth_data) =
      ⟨[Json.dumpsInd 0 auth_data], [RemoteCall.authenticate client_id secret], [], .exit 0⟩ :=
  rfl

/-- C9: for well-formed demand tuples (non-empty price type code,
numeric — hence non-negative — quantity and admits), `create-basket` and
`add-offer` accept the invocation and the remote call receives exactly
one demand per `--demand` occurrence, in the same order, each carrying
the three command-line components unchanged. -/
theorem demand_tuples_forwarded_unmodified
    (seller_code basket_id performance_code sec : String)
    (demand : List (String × String × String)) (fee : List (String × String))
    (customer_id : Option String) (token : Json)
    (remote : RemoteCall → Except String Json)
    (hwf : ∀ d ∈ demand, wellFormedDemand d = true)
    (hfee : validate_fee fee = none) :
    (create_basket_cli seller_code performance_code sec demand fee customer_id token
      remote).calls =
      [RemoteCall.createBasket seller_code performance_code sec
        (demand.map fun d => ⟨d.1, d.2.1, d.2.2⟩) (fee.map fun f => ⟨f.1, f.2⟩) customer_id] ∧
    (add_offer_cli seller_code basket_id performance_code sec demand fee token remote).calls =
      [RemoteCall.addOffer seller_code basket_id performance_code sec
        (demand.map fun d => ⟨d.1, d.2.1, d.2.2⟩) (fee.map fun f => ⟨f.1, f.2⟩)] ∧
    ∀ (i : Nat) (h : i < demand.length)
      (h2 : i < (demand.map fun d => Demand.mk d.1 d.2.1 d.2.2).length),
      (demand.map fun d => Demand.mk d.1 d.2.1 d.2.2).get ⟨i, h2⟩ =
        ⟨(demand.get ⟨i, h⟩).1, (demand.get ⟨i, h⟩).2.1, (demand.get ⟨i, h⟩).2.2⟩ := by
  refine ⟨?_, ?_, ?_⟩
  · simp only [create_basket_cli, hfee, create_basket]
    cases remote (RemoteCall.createBasket seller_code performance_code sec
      (demand.map fun d => ⟨d.1, d.2.1, d.2.2⟩) (fee.map fun f => ⟨f.1, f.2⟩) customer_id) <;>
      rfl
  · simp only [add_offer_cli, hfee, add_offer]
    cases remote (RemoteCall.addOffer seller_code basket_id performance_code sec
      (demand.map fun d => ⟨d.1, d.2.1, d.2.2⟩) (fee.map fun f => ⟨f.1, f.2⟩)) <;> rfl
  · intro i h h2
    simp [List.get_eq_getElem]

/-- Witness for C9 with the demand `GA 2 2` and fee `SVC F1`. -/
theorem demand_tuples_forwarded_unmodified_witness :
    (∀ d ∈ [("GA", "2", "2")], wellFormedDemand d = true) ∧
    validate_fee [("SVC", "F1")] = none ∧
    (create_basket_cli "SELL" "PERF1" "A" [("GA", "2", "2")] [("SVC", "F1")] none Json.null
      (fun _ => .ok Json.null)).calls =
      [RemoteCall.createBasket "SELL" "PERF1" "A" [⟨"GA", "2", "2"⟩] [⟨"SVC", "F1"⟩] none] := by
  have hwf : ∀ d ∈ [("GA", "2", "2")], wellFormedDemand d = true := by
    decide
  have hfee : validate_fee [("SVC", "F1")] = none := by decide
  obtain ⟨h1, h2, h3⟩ :=
    demand_tuples_forwarded_unmodified "SELL" "B1" "PERF1" "A" [("GA", "2", "2")]
      [("SVC", "F1")] none Json.null (fun _ => .ok Json.null) hwf hfee
  exact ⟨hwf, hfee, h1⟩

/-- C10: for every subcommand that takes `--token-json`, the validated
token value is never forwarded to the remote client, so two invocations
that differ only in the token content produce identical outcomes — the
same remote calls with the same arguments and the same printed output. -/
theorem token_content_noninterference
    (seller_code basket_id performance_code customer_id order_id sec : String)
    (loaded : Except Unit Json) (demand : List (String × String × String))
    (fee : List (String × String)) (cid : Option String) (t1 t2 : Json)
    (remote : RemoteCall → Except String Json) :
    create_customer seller_code loaded t1 remote = create_customer seller_code loaded t2 remote ∧
    add_offer seller_code basket_id performance_code sec demand fee t1 remote =
      add_offer seller_code basket_id performance_code sec demand fee t2 remote ∧
    create_basket seller_code performance_code sec demand fee cid t1 remote =
      create_basket seller_code performance_code sec demand fee cid t2 remote ∧
    get_performance_availabilities seller_code performance_code t1 remote =
      get_performance_availabilities seller_code performance_code t2 remote ∧
    get_performance_prices seller_code performance_code t1 remote =
      get_performance_prices seller_code performance_code t2 remote ∧
    get_basket seller_code basket_id t1 remote = get_basket seller_code basket_id t2 remote ∧
    get_customer seller_code customer_id t1 remote =
      get_customer seller_code customer_id t2 remote ∧
    get_order seller_code order_id t1 remote = get_order seller_code order_id t2 remote ∧
    purchase_basket seller_code basket_id cid t1 remote =
      purchase_basket seller_code basket_id cid t2 remote ∧
    reverse_order seller_code order_id t1 remote = reverse_order seller_code order_id t2 remote :=
  ⟨rfl, rfl, rfl, rfl, rfl, rfl, rfl, rfl, rfl, rfl⟩
